import Mathlib

/-!
Verification model of the SDG-tracker core (`src/app.py`).

Part 1: the pace-based progress evaluator `progress_status`.

Python floats are modelled by `EF`: an exact rational together with the IEEE
special values `+inf`, `-inf` and `nan` (float rounding is not modelled; every
claim is about classification structure, not rounding).  Python raises
`ZeroDivisionError` when a float is divided by (exactly) zero, so division is
`Except`-valued via `pydiv`; all other operations are total.
-/

deriving instance DecidableEq for Except

/-- Python-float model: finite rational, plus or minus infinity, or NaN. -/
inductive EF where
  | fin (q : ℚ)
  | pinf
  | ninf
  | nan
deriving DecidableEq

namespace EF

/-- Python float subtraction (`x - y`), with IEEE special-value rules. -/
def sub : EF → EF → EF
  | nan, _ => nan
  | fin _, nan => nan
  | pinf, nan => nan
  | ninf, nan => nan
  | fin a, fin b => fin (a - b)
  | fin _, pinf => ninf
  | fin _, ninf => pinf
  | pinf, fin _ => pinf
  | pinf, pinf => nan
  | pinf, ninf => pinf
  | ninf, fin _ => ninf
  | ninf, pinf => ninf
  | ninf, ninf => nan

/-- Total division used once the zero-divisor case has been excluded
(`pydiv` below performs that exclusion exactly as CPython does).
The `fin _ / fin 0` case is unreachable through `pydiv`. -/
def fdiv : EF → EF → EF
  | nan, _ => nan
  | fin _, nan => nan
  | pinf, nan => nan
  | ninf, nan => nan
  | fin a, fin b => if b = 0 then nan else fin (a / b)
  | fin _, pinf => fin 0
  | fin _, ninf => fin 0
  | pinf, fin b => if 0 ≤ b then pinf else ninf
  | ninf, fin b => if 0 ≤ b then ninf else pinf
  | pinf, pinf => nan
  | pinf, ninf => nan
  | ninf, pinf => nan
  | ninf, ninf => nan

/-- Python `x >= y` on floats: any comparison involving NaN is `False`. -/
def ge : EF → EF → Bool
  | nan, _ => false
  | fin _, nan => false
  | pinf, nan => false
  | ninf, nan => false
  | fin a, fin b => decide (b ≤ a)
  | fin _, pinf => false
  | fin _, ninf => true
  | pinf, _ => true
  | ninf, ninf => true
  | ninf, _ => false

/-- Python `math.isnan`. -/
def isnan : EF → Bool
  | nan => true
  | _ => false

/-- Python truthiness of a float: `0.0` is falsy, everything else
(including `inf` and `nan`) is truthy. -/
def truthy : EF → Bool
  | fin q => q != 0
  | _ => true

end EF

/-- Python float division: CPython raises `ZeroDivisionError` whenever the
divisor is (exactly) zero, for any dividend including `inf` and `nan`. -/
def pydiv (x y : EF) : Except String EF :=
  if y = EF.fin 0 then .error "ZeroDivisionError" else .ok (x.fdiv y)

/-- `BASELINE_YEAR = 2015` (src/app.py line 30). -/
def BASELINE_YEAR : Int := 2015

/-- `TARGET_YEAR = 2030` (src/app.py line 31). -/
def TARGET_YEAR : Int := 2030

/-- The required rate of `progress_status` as a total value:
`(target - baseline) / years_total` for `better = "up"`, mirrored otherwise
(src/app.py lines 191, 195). -/
def req_rate_of (baseline tgt : EF) (better : String) : EF :=
  if better = "up" then
    (tgt.sub baseline).fdiv (EF.fin ((max 1 (TARGET_YEAR - BASELINE_YEAR) : Int) : ℚ))
  else
    (baseline.sub tgt).fdiv (EF.fin ((max 1 (TARGET_YEAR - BASELINE_YEAR) : Int) : ℚ))

/-- The actual rate of `progress_status` as a total value:
`(latest - baseline) / years_done` for `better = "up"`, mirrored otherwise
(src/app.py lines 192, 196). -/
def act_rate_of (baseline latest : EF) (ly : Int) (better : String) : EF :=
  if better = "up" then
    (latest.sub baseline).fdiv (EF.fin ((max 1 (ly - BASELINE_YEAR) : Int) : ℚ))
  else
    (baseline.sub latest).fdiv (EF.fin ((max 1 (ly - BASELINE_YEAR) : Int) : ℚ))

/-- The progress ratio of `progress_status` as a total value:
`(latest - baseline) / (target - baseline) if (target - baseline) else None`
for `better = "up"`, mirrored otherwise (src/app.py lines 193, 197). -/
def progress_of (baseline latest tgt : EF) (better : String) : Option EF :=
  if better = "up" then
    if (tgt.sub baseline).truthy then some ((latest.sub baseline).fdiv (tgt.sub baseline)) else none
  else
    if (baseline.sub tgt).truthy then some ((baseline.sub latest).fdiv (baseline.sub tgt)) else none

/-- The pace of `progress_status` as a total value:
`act_rate / req_rate if req_rate not in (0, None) else 0.0`
(src/app.py line 202). -/
def pace_of (baseline latest : EF) (ly : Int) (tgt : EF) (better : String) : EF :=
  if req_rate_of baseline tgt better ≠ EF.fin 0 then
    (act_rate_of baseline latest ly better).fdiv (req_rate_of baseline tgt better)
  else EF.fin 0

/-- The rate/ratio block of `progress_status` (src/app.py lines 187-197):
`years_done = max(1, latest_year - BASELINE_YEAR)`,
`years_total = max(1, TARGET_YEAR - BASELINE_YEAR)`, then the three divisions
of the chosen direction branch, each of which would raise on a zero divisor. -/
def rates_of (baseline latest : EF) (ly : Int) (tgt : EF) (better : String) :
    Except String (EF × EF × Option EF) :=
  let years_done : Int := max 1 (ly - BASELINE_YEAR)
  let years_total : Int := max 1 (TARGET_YEAR - BASELINE_YEAR)
  if better = "up" then
    match pydiv (tgt.sub baseline) (EF.fin (years_total : ℚ)) with
    | .error e => .error e
    | .ok rr =>
      match pydiv (latest.sub baseline) (EF.fin (years_done : ℚ)) with
      | .error e => .error e
      | .ok ar =>
        if (tgt.sub baseline).truthy then
          match pydiv (latest.sub baseline) (tgt.sub baseline) with
          | .error e => .error e
          | .ok p => .ok (rr, ar, some p)
        else .ok (rr, ar, none)
  else
    match pydiv (baseline.sub tgt) (EF.fin (years_total : ℚ)) with
    | .error e => .error e
    | .ok rr =>
      match pydiv (baseline.sub latest) (EF.fin (years_done : ℚ)) with
      | .error e => .error e
      | .ok ar =>
        if (baseline.sub tgt).truthy then
          match pydiv (baseline.sub latest) (baseline.sub tgt) with
          | .error e => .error e
          | .ok p => .ok (rr, ar, some p)
        else .ok (rr, ar, none)

/-- `progress_status` (src/app.py lines 179-207).  Inputs: the two resolved
values, the optional latest year, the optional target (`None` and the blank
string `""` are both modelled as `none`, line 184 treats them identically) and
the `better` direction string.  Result: `(status label, optional ratio)`, in
`Except` because Python float division can raise `ZeroDivisionError` (no
`try` surrounds this function in the source). -/
def progress_status (baseline latest : EF) (latest_year : Option Int)
    (target : Option EF) (better : String) : Except String (String × Option EF) :=
  match latest_year with
  | none => .ok ("insufficient data", none)
  | some ly =>
    if ly ≤ BASELINE_YEAR then .ok ("insufficient data", none)
    else
      match target with
      | none => .ok ("trend only", none)
      | some tgt =>
        match rates_of baseline latest ly tgt better with
        | .error e => .error e
        | .ok (req_rate, act_rate, progress) =>
          if progress = none ∨ req_rate.isnan = true ∨ act_rate.isnan = true then
            .ok ("trend only", none)
          else
            match (if req_rate ≠ EF.fin 0 then pydiv act_rate req_rate else .ok (EF.fin 0)) with
            | .error e => .error e
            | .ok pace =>
              .ok (if pace.ge (EF.fin 1) then ("🟢 on track", progress)
                   else if pace.ge (EF.fin (1/2)) then ("🟠 needs acceleration", progress)
                   else ("🔴 off track", progress))

/-! Helper lemmas about the evaluator. -/

theorem truthy_ne_zero (e : EF) (h : e.truthy = true) : e ≠ EF.fin 0 := by
  intro he
  subst he
  simp [EF.truthy] at h

theorem pydiv_ok (x y : EF) (h : y ≠ EF.fin 0) : pydiv x y = .ok (x.fdiv y) := by
  simp [pydiv, h]

theorem max_year_ne (x : Int) : EF.fin ((max 1 x : Int) : ℚ) ≠ EF.fin 0 := by
  simp only [ne_eq, EF.fin.injEq]
  intro h
  have h2 : (max 1 x : Int) = 0 := by exact_mod_cast h
  omega

theorem one_sup_ne (q : ℚ) : (1 ⊔ q : ℚ) ≠ 0 := by
  intro h
  have h1 : (1 : ℚ) ≤ 1 ⊔ q := le_max_left 1 q
  rw [h] at h1
  norm_num at h1

theorem fin_one_sup_ne (q : ℚ) : EF.fin (1 ⊔ q) ≠ EF.fin 0 := by
  simp only [ne_eq, EF.fin.injEq]
  exact one_sup_ne q

/-- The rate/ratio block never raises: it always returns the three total
values `req_rate_of`, `act_rate_of`, `progress_of` (the zero-divisor guards in
the source are exactly the truthiness tests). -/
theorem rates_of_eq (b l : EF) (ly : Int) (t : EF) (d : String) :
    rates_of b l ly t d = .ok (req_rate_of b t d, act_rate_of b l ly d, progress_of b l t d) := by
  by_cases hd : d = "up"
  · simp only [rates_of, req_rate_of, act_rate_of, progress_of, if_pos hd]
    by_cases ht : (t.sub b).truthy = true
    · simp only [ht, if_true, pydiv_ok (t.sub b) _ (max_year_ne _),
        pydiv_ok (l.sub b) _ (max_year_ne _), pydiv_ok (l.sub b) _ (truthy_ne_zero _ ht)]
    · simp only [ht, Bool.false_eq_true, if_false, pydiv_ok (t.sub b) _ (max_year_ne _),
        pydiv_ok (l.sub b) _ (max_year_ne _)]
  · simp only [rates_of, req_rate_of, act_rate_of, progress_of, if_neg hd]
    by_cases ht : (b.sub t).truthy = true
    · simp only [ht, if_true, pydiv_ok (b.sub t) _ (max_year_ne _),
        pydiv_ok (b.sub l) _ (max_year_ne _), pydiv_ok (b.sub l) _ (truthy_ne_zero _ ht)]
    · simp only [ht, Bool.false_eq_true, if_false, pydiv_ok (b.sub t) _ (max_year_ne _),
        pydiv_ok (b.sub l) _ (max_year_ne _)]

/-- Claim C9: for every combination of the other inputs, if `latest_year` is
absent or at most 2015 (the baseline year), `progress_status` returns status
"insufficient data" with ratio `none` (src/app.py lines 182-183). -/
theorem c9_insufficient_data (b l : EF) (t : Option EF) (d : String) (lyo : Option Int)
    (h : ∀ ly : Int, lyo = some ly → ly ≤ 2015) :
    progress_status b l lyo t d = .ok ("insufficient data", none) := by
  match lyo with
  | none => rfl
  | some ly =>
    have hly : ly ≤ BASELINE_YEAR := by
      have := h ly rfl
      simp only [BASELINE_YEAR]
      omega
    simp only [progress_status, if_pos hly]

theorem c9_insufficient_data_witness :
    progress_status (EF.fin 5) (EF.fin 3) none (some (EF.fin 1)) "up"
      = .ok ("insufficient data", none) :=
  c9_insufficient_data (EF.fin 5) (EF.fin 3) (some (EF.fin 1)) "up" none
    (fun _ hx => nomatch hx)

/-- Claim C8 counterexample: with target equal to baseline but
`latest_year = 2010` (at most the baseline year), `progress_status` returns
"insufficient data", not "trend only"; so the claim as stated (trend-only for
every input with target = baseline) is false on the code. -/
theorem c8_counterexample :
    progress_status (EF.fin 10) (EF.fin 10) (some 2010) (some (EF.fin 10)) "up"
      = .ok ("insufficient data", none)
    ∧ ("insufficient data" : String) ≠ "trend only" :=
  ⟨rfl, by decide⟩

/-- Claim C8 (amended): for every input with target equal to the baseline
value that passes the data-sufficiency guard (`latest_year > 2015`), under
either direction string, the result is "trend only" with ratio `none`, and
the call returns normally (no ZeroDivisionError: the truthiness guard on
`target - baseline` skips the ratio division, src/app.py lines 193, 197). -/
theorem c8_target_eq_baseline (b l : EF) (ly : Int) (d : String) (hly : 2015 < ly) :
    progress_status b l (some ly) (some b) d = .ok ("trend only", none) := by
  have hnot : ¬ ly ≤ BASELINE_YEAR := by
    simp only [BASELINE_YEAR]
    omega
  have hcond : progress_of b l b d = none ∨ (req_rate_of b b d).isnan = true
      ∨ (act_rate_of b l ly d).isnan = true := by
    by_cases hd : d = "up" <;> cases b <;>
      simp [progress_of, req_rate_of, EF.sub, EF.truthy, EF.fdiv, EF.isnan, hd]
  simp only [progress_status, rates_of_eq, if_neg hnot, if_pos hcond]

theorem c8_target_eq_baseline_witness :
    progress_status (EF.fin 10) (EF.fin 10) (some 2020) (some (EF.fin 10)) "up"
      = .ok ("trend only", none) :=
  c8_target_eq_baseline (EF.fin 10) (EF.fin 10) 2020 "up" (by norm_num)

/-- Claim C7 counterexample: an infinite `latest` value is not caught by the
NaN check (the code tests only `math.isnan` on the two rates, src/app.py
line 199), so the infinity reaches the pace comparison and the result is
"on track" with an infinite ratio — not "trend only" with ratio `none`. -/
theorem c7_counterexample :
    progress_status (EF.fin 0) EF.pinf (some 2020) (some (EF.fin 70)) "up"
      = .ok ("🟢 on track", some EF.pinf)
    ∧ (Except.ok ("🟢 on track", some EF.pinf)
        : Except String (String × Option EF)) ≠ .ok ("trend only", none) := by
  constructor
  · simp +decide [progress_status, rates_of, pydiv, EF.sub, EF.fdiv, EF.truthy, EF.ge, EF.isnan,
      BASELINE_YEAR, TARGET_YEAR]
    try norm_num
    try exact fun h => nomatch h
  · intro hx
    simp at hx

/-- Claim C7 (amended): whenever either computed rate is NaN (in particular
whenever any of baseline, latest or target is NaN) and the guards are passed,
`progress_status` short-circuits to "trend only" with ratio `none`;
infinities, by contrast, are not detected (see the counterexample). -/
theorem c7_nan_rate_trend_only (b l t : EF) (ly : Int) (d : String) (hly : 2015 < ly)
    (h : (req_rate_of b t d).isnan = true ∨ (act_rate_of b l ly d).isnan = true) :
    progress_status b l (some ly) (some t) d = .ok ("trend only", none) := by
  have hnot : ¬ ly ≤ BASELINE_YEAR := by
    simp only [BASELINE_YEAR]
    omega
  simp only [progress_status, rates_of_eq, if_neg hnot, if_pos (Or.inr h)]

theorem c7_nan_rate_trend_only_witness :
    progress_status EF.nan (EF.fin 0) (some 2020) (some (EF.fin 1)) "up"
      = .ok ("trend only", none) :=
  c7_nan_rate_trend_only EF.nan (EF.fin 0) (EF.fin 1) 2020 "up" (by norm_num)
    (Or.inl (by simp [req_rate_of, EF.sub, EF.fdiv, EF.isnan]))

/-- Claim C10: for every input, `progress_status` returns a non-none ratio
exactly when the returned status is one of the three classified statuses;
"insufficient data" and "trend only" always carry ratio `none`
(src/app.py lines 179-207). -/
theorem c10_ratio_iff_classified (b l : EF) (lyo : Option Int) (t : Option EF) (d : String)
    (s : String) (r : Option EF)
    (h : progress_status b l lyo t d = .ok (s, r)) :
    r.isSome = true ↔ (s = "🟢 on track" ∨ s = "🟠 needs acceleration" ∨ s = "🔴 off track") := by
  cases lyo with
  | none =>
    simp only [progress_status, Except.ok.injEq, Prod.mk.injEq] at h
    obtain ⟨hs, hr⟩ := h
    subst hs
    subst hr
    simp +decide
  | some ly =>
    by_cases hly : ly ≤ BASELINE_YEAR
    · simp only [progress_status, if_pos hly, Except.ok.injEq, Prod.mk.injEq] at h
      obtain ⟨hs, hr⟩ := h
      subst hs
      subst hr
      simp +decide
    · cases t with
      | none =>
        simp only [progress_status, if_neg hly, Except.ok.injEq, Prod.mk.injEq] at h
        obtain ⟨hs, hr⟩ := h
        subst hs
        subst hr
        simp +decide
      | some tgt =>
        simp only [progress_status, if_neg hly, rates_of_eq] at h
        by_cases hc : progress_of b l tgt d = none ∨ (req_rate_of b tgt d).isnan = true
            ∨ (act_rate_of b l ly d).isnan = true
        · simp only [if_pos hc, Except.ok.injEq, Prod.mk.injEq] at h
          obtain ⟨hs, hr⟩ := h
          subst hs
          subst hr
          simp +decide
        · simp only [if_neg hc] at h
          push_neg at hc
          obtain ⟨hp, _, _⟩ := hc
          split at h
          · simp at h
          · simp only [Except.ok.injEq] at h
            split at h
            all_goals try split at h
            all_goals
              simp only [Prod.mk.injEq] at h
              obtain ⟨hs, hr⟩ := h
              subst hs
              subst hr
              exact iff_of_true (Option.ne_none_iff_isSome.mp hp) (by simp)

theorem c10_ratio_iff_classified_witness :
    (some (EF.fin (1/13))).isSome = true ↔
      (("🟠 needs acceleration" : String) = "🟢 on track"
        ∨ ("🟠 needs acceleration" : String) = "🟠 needs acceleration"
        ∨ ("🟠 needs acceleration" : String) = "🔴 off track") :=
  c10_ratio_iff_classified (EF.fin 200) (EF.fin 190) (some 2017) (some (EF.fin 70)) "down"
    "🟠 needs acceleration" (some (EF.fin (1/13)))
    (by simp +decide [progress_status, rates_of, pydiv, EF.sub, EF.fdiv, EF.truthy, EF.ge,
          EF.isnan, BASELINE_YEAR, TARGET_YEAR]
        try norm_num
        try exact fun h => nomatch h)

/-- Claim C1: for every evaluation that reaches classification (a ratio is
returned), the status is determined solely by the pace
`act_rate / req_rate` (with pace 0 when the required rate is zero) via the
thresholds pace >= 1 -> on track, 0.5 <= pace < 1 -> needs acceleration,
pace < 0.5 -> off track; and in the concrete scenario baseline=200,
latest=100, latest_year=2023, target=70, direction down, the result is
on track with ratio 100/130 = 10/13 (src/app.py lines 187-207). -/
theorem c1_pace_thresholds :
    (∀ (b l : EF) (ly : Int) (t : EF) (d : String) (s : String) (r : EF),
        progress_status b l (some ly) (some t) d = .ok (s, some r) →
        s = (if (pace_of b l ly t d).ge (EF.fin 1) = true then "🟢 on track"
             else if (pace_of b l ly t d).ge (EF.fin (1/2)) = true then "🟠 needs acceleration"
             else "🔴 off track"))
    ∧ progress_status (EF.fin 200) (EF.fin 100) (some 2023) (some (EF.fin 70)) "down"
        = .ok ("🟢 on track", some (EF.fin (10/13))) := by
  constructor
  · intro b l ly t d s r h
    by_cases hly : ly ≤ BASELINE_YEAR
    · simp only [progress_status, if_pos hly, Except.ok.injEq, Prod.mk.injEq] at h
      exact absurd h.2 (by simp)
    · simp only [progress_status, if_neg hly, rates_of_eq] at h
      by_cases hc : progress_of b l t d = none ∨ (req_rate_of b t d).isnan = true
          ∨ (act_rate_of b l ly d).isnan = true
      · simp only [if_pos hc, Except.ok.injEq, Prod.mk.injEq] at h
        exact absurd h.2 (by simp)
      · simp only [if_neg hc] at h
        unfold pace_of
        by_cases hreq : req_rate_of b t d = EF.fin 0
        · have hreq2 : ¬ (req_rate_of b t d ≠ EF.fin 0) := not_not_intro hreq
          rw [if_neg hreq2] at h
          rw [if_neg hreq2]
          have hge1 : (EF.fin 0).ge (EF.fin 1) = false := by
            simp only [EF.ge]
            exact decide_eq_false (by norm_num)
          have hge2 : (EF.fin 0).ge (EF.fin (1/2)) = false := by
            simp only [EF.ge]
            exact decide_eq_false (by norm_num)
          simp only [Except.ok.injEq, hge1, hge2, Bool.false_eq_true, if_false,
            Prod.mk.injEq] at h
          rw [hge1, hge2]
          simp only [Bool.false_eq_true, if_false]
          exact h.1.symm
        · rw [if_pos hreq] at h
          rw [if_pos hreq]
          rw [pydiv_ok _ _ hreq] at h
          simp only [Except.ok.injEq] at h
          split at h
          next h1 =>
            simp only [Prod.mk.injEq] at h
            rw [if_pos h1]
            exact h.1.symm
          next h1 =>
            split at h
            next h2 =>
              simp only [Prod.mk.injEq] at h
              rw [if_neg h1, if_pos h2]
              exact h.1.symm
            next h2 =>
              simp only [Prod.mk.injEq] at h
              rw [if_neg h1, if_neg h2]
              exact h.1.symm
  · simp +decide [progress_status, rates_of, pydiv, EF.sub, EF.fdiv, EF.truthy, EF.ge, EF.isnan,
      BASELINE_YEAR, TARGET_YEAR]
    try norm_num
    try exact fun h => nomatch h

theorem c1_pace_thresholds_witness :
    ("🟠 needs acceleration" : String) =
      (if (pace_of (EF.fin 200) (EF.fin 190) 2017 (EF.fin 70) "down").ge (EF.fin 1) = true
         then "🟢 on track"
       else if (pace_of (EF.fin 200) (EF.fin 190) 2017 (EF.fin 70) "down").ge (EF.fin (1/2)) = true
         then "🟠 needs acceleration"
       else "🔴 off track") :=
  c1_pace_thresholds.1 (EF.fin 200) (EF.fin 190) 2017 (EF.fin 70) "down"
    "🟠 needs acceleration" (EF.fin (1/13))
    (by simp +decide [progress_status, rates_of, pydiv, EF.sub, EF.fdiv, EF.truthy, EF.ge,
          EF.isnan, BASELINE_YEAR, TARGET_YEAR]
        try norm_num
        try exact fun h => nomatch h)

/-- Claim C4 counterexample: evaluate(baseline=0, latest=70, latest_year=2025,
target=70, direction=down) returns "on track" with ratio
(0-70)/(0-70) = 1 — a positive ratio and on-track status, not the negative
ratio and off-track status the claim asserts (with target above baseline,
the "down" sign convention makes reaching the target count as progress). -/
theorem c4_counterexample :
    progress_status (EF.fin 0) (EF.fin 70) (some 2025) (some (EF.fin 70)) "down"
      = .ok ("🟢 on track", some (EF.fin 1))
    ∧ ¬ ((1 : ℚ) < 0) ∧ ("🟢 on track" : String) ≠ "🔴 off track" := by
  refine ⟨?_, by norm_num, by decide⟩
  simp +decide [progress_status, rates_of, pydiv, EF.sub, EF.fdiv, EF.truthy, EF.ge, EF.isnan,
    BASELINE_YEAR, TARGET_YEAR]
  try norm_num
  try exact fun h => nomatch h

/-- Claim C4 (amended): moving the wrong direction from baseline when lower
is better does yield a negative ratio and off-track status provided the
target lies below the baseline (t < b < latest): then
ratio = (b - latest)/(b - t) < 0 and the pace is negative, hence
"off track".  The claim's instance baseline=0, target=70 has the target
above the baseline and instead returns on-track with ratio 1. -/
theorem c4_wrong_direction (b l t : ℚ) (ly : Int) (hly : 2015 < ly) (ht : t < b) (hl : b < l) :
    progress_status (EF.fin b) (EF.fin l) (some ly) (some (EF.fin t)) "down"
      = .ok ("🔴 off track", some (EF.fin ((b - l) / (b - t))))
    ∧ (b - l) / (b - t) < 0 := by
  have hbt : (0 : ℚ) < b - t := by linarith
  have hbl : b - l < 0 := by linarith
  have hbtne : b - t ≠ 0 := ne_of_gt hbt
  have hratio : (b - l) / (b - t) < 0 := div_neg_of_neg_of_pos hbl hbt
  refine ⟨?_, hratio⟩
  have hnot : ¬ ly ≤ BASELINE_YEAR := by
    simp only [BASELINE_YEAR]
    omega
  have hdneq : ¬ ("down" : String) = "up" := by decide
  have h15 : ((max 1 (TARGET_YEAR - BASELINE_YEAR) : Int) : ℚ) = 15 := by
    have : (max 1 (TARGET_YEAR - BASELINE_YEAR) : Int) = 15 := by
      simp only [TARGET_YEAR, BASELINE_YEAR]
      omega
    rw [this]
    norm_num
  have hydq : ((max 1 (ly - BASELINE_YEAR) : Int) : ℚ) = ((ly - 2015 : Int) : ℚ) := by
    have : (max 1 (ly - BASELINE_YEAR) : Int) = ly - 2015 := by
      simp only [BASELINE_YEAR]
      omega
    rw [this]
  have hydpos : (0 : ℚ) < ((ly - 2015 : Int) : ℚ) := by
    have : (0 : Int) < ly - 2015 := by omega
    exact_mod_cast this
  have hydne : ((ly - 2015 : Int) : ℚ) ≠ 0 := ne_of_gt hydpos
  have hreq : req_rate_of (EF.fin b) (EF.fin t) "down" = EF.fin ((b - t) / 15) := by
    simp only [req_rate_of, if_neg hdneq, EF.sub, EF.fdiv, h15]
    rw [if_neg (by norm_num : ¬ (15 : ℚ) = 0)]
  have hact : act_rate_of (EF.fin b) (EF.fin l) ly "down"
      = EF.fin ((b - l) / ((ly - 2015 : Int) : ℚ)) := by
    simp only [act_rate_of, if_neg hdneq, EF.sub, EF.fdiv, hydq]
    rw [if_neg hydne]
  have hprog : progress_of (EF.fin b) (EF.fin l) (EF.fin t) "down"
      = some (EF.fin ((b - l) / (b - t))) := by
    simp only [progress_of, if_neg hdneq, EF.sub, EF.truthy, EF.fdiv]
    rw [if_pos (by simpa [bne_iff_ne] using hbtne), if_neg hbtne]
  have hreqne : EF.fin ((b - t) / 15) ≠ EF.fin 0 := by
    simp only [ne_eq, EF.fin.injEq]
    exact div_ne_zero hbtne (by norm_num)
  have hpacelt : (b - l) / ((ly - 2015 : Int) : ℚ) / ((b - t) / 15) < 0 :=
    div_neg_of_neg_of_pos (div_neg_of_neg_of_pos hbl hydpos)
      (div_pos hbt (by norm_num))
  have hge1 : (EF.fin ((b - l) / ((ly - 2015 : Int) : ℚ) / ((b - t) / 15))).ge (EF.fin 1)
      = false := by
    simp only [EF.ge]
    exact decide_eq_false (by intro hx; linarith)
  have hge2 : (EF.fin ((b - l) / ((ly - 2015 : Int) : ℚ) / ((b - t) / 15))).ge (EF.fin (1/2))
      = false := by
    simp only [EF.ge]
    exact decide_eq_false (by intro hx; linarith)
  have hcond2 : ¬ ((some (EF.fin ((b - l) / (b - t))) : Option EF) = none
      ∨ (EF.fin ((b - t) / 15)).isnan = true
      ∨ (EF.fin ((b - l) / ((ly - 2015 : Int) : ℚ))).isnan = true) := by
    simp [EF.isnan]
  have hdivne : ((b - t) / 15 : ℚ) ≠ 0 := div_ne_zero hbtne (by norm_num)
  simp only [progress_status, rates_of_eq, if_neg hnot, hreq, hact, hprog]
  rw [if_neg hcond2]
  rw [if_pos hreqne, pydiv_ok _ _ hreqne]
  simp only [EF.fdiv]
  simp only [if_neg hdivne, hge1, hge2, Bool.false_eq_true, if_false]

theorem c4_wrong_direction_witness :
    progress_status (EF.fin 70) (EF.fin 140) (some 2025) (some (EF.fin 0)) "down"
      = .ok ("🔴 off track", some (EF.fin (((70 : ℚ) - 140) / (70 - 0))))
    ∧ ((70 : ℚ) - 140) / (70 - 0) < 0 :=
  c4_wrong_direction 70 140 0 2025 (by norm_num) (by norm_num) (by norm_num)

/-!
Part 2: the SDMX cube processing of `_un_series_data_via_sdmx` and the
disaggregation-scoring heuristic `_score_series_key` (src/app.py 326-393).

The parsed JSON cube is modelled with series keys and observation keys
already split on ":" into lists of natural-number indices, and observation
values as `Option ℚ` (null or a real number).
-/

/-- One dimension value of the SDMX structure: `{"id": ..., "name": ...}`. -/
structure DimValue where
  id : String
  name : String
deriving DecidableEq

/-- One dimension: `{"id": ..., "values": [...]}`. -/
structure SDim where
  id : String
  values : List DimValue
deriving DecidableEq

/-- ASCII uppercasing of one character (Python `str.upper` on the ASCII
identifiers that occur in SDMX structures). -/
def upChar (c : Char) : Char :=
  if 97 ≤ c.toNat ∧ c.toNat ≤ 122 then Char.ofNat (c.toNat - 32) else c

/-- Python `s.upper()`, as the uppercased character list of `s`. -/
def upper (s : String) : List Char := s.data.map upChar

/-- Python `s.startswith(t)` on character lists. -/
def isPrefixList : List Char → List Char → Bool
  | [], _ => true
  | _ :: _, [] => false
  | c :: cs, d :: ds => c == d && isPrefixList cs ds

/-- Python `needle in hay` (substring containment) on character lists. -/
def containsList (needle : List Char) : List Char → Bool
  | [] => needle.isEmpty
  | c :: rest => isPrefixList needle (c :: rest) || containsList needle rest

/-- Python `int(s)` on the (digit-string) time-value identifiers that occur
in SDMX responses; `none` models the `ValueError` raised otherwise. -/
def parseInt (s : List Char) : Option Int :=
  if s ≠ [] ∧ s.all (fun c => 48 ≤ c.toNat ∧ c.toNat ≤ 57) then
    some (s.foldl (fun acc c => acc * 10 + ((c.toNat : Int) - 48)) 0)
  else none

/-- The `total_tokens` tuple of `_score_series_key` (src/app.py line 330). -/
def total_tokens : List String := ["T", "TOTAL", "TOTL", "ALL", "BTSX", "ALLAREA", "ALLAGE"]

/-- Per-position contribution of `_score_series_key` (src/app.py 333-340):
+2 when a total-like token occurs in the uppercased value id or name, +3 when
the dimension id (uppercased) is "REPORTING_TYPE" and the uppercased value id
is one of G/NAT/NATIONAL.  An index beyond the value list (an `IndexError` in
Python) resolves here to the blank value, which contributes 0. -/
def dimContrib (dim : SDim) (i : Nat) : Int :=
  let valmeta := dim.values.getD i ⟨"", ""⟩
  let valid := upper valmeta.id
  let valname := upper valmeta.name
  (if total_tokens.any (fun tok => containsList tok.data valid)
      ∨ total_tokens.any (fun tok => containsList tok.data valname) then 2 else 0)
  + (if upper dim.id = "REPORTING_TYPE".data
      ∧ (valid = "G".data ∨ valid = "NAT".data ∨ valid = "NATIONAL".data) then 3 else 0)

/-- `_score_series_key` (src/app.py 326-341): walk dimensions and key indices
in lockstep, stopping at the shorter list (`if pos >= len(idx): break`). -/
def _score_series_key : List SDim → List Nat → Int
  | [], _ => 0
  | _ :: _, [] => 0
  | dim :: dims, i :: idx => dimContrib dim i + _score_series_key dims idx

/-- One entry of the SDMX `dataSets[0].series` mapping: its `observations`
dictionary in native order, each entry an already-split observation key and
the raw value array (`val[0]` is the value, possibly null). -/
structure SeriesEntry where
  observations : List (List Nat × List (Option ℚ))
deriving DecidableEq

/-- The parsed SDMX cube consumed by `_un_series_data_via_sdmx`:
`structure.dimensions.series`, `structure.dimensions.observation`, and the
series mapping of `dataSets[0]`, each in native order. -/
structure Cube where
  series_dims : List SDim
  obs_dims : List SDim
  series : List (List Nat × SeriesEntry)
deriving DecidableEq

/-- The best-key loop of `_un_series_data_via_sdmx` (src/app.py 374-378):
fold over the series in native order keeping `(best_key, best_score)`,
updating when `score > best_score and ser.get("observations")`. -/
def select_loop (series_dims : List SDim) :
    List (List Nat × SeriesEntry) → Option (List Nat) → Int → Option (List Nat) × Int
  | [], bk, bs => (bk, bs)
  | (k, ser) :: rest, bk, bs =>
    if bs < _score_series_key series_dims k ∧ ser.observations ≠ [] then
      select_loop series_dims rest (some k) (_score_series_key series_dims k)
    else select_loop series_dims rest bk bs

/-- The chosen key after the loop, starting from `(None, -1)`
(src/app.py line 374). -/
def select_best (c : Cube) : Option (List Nat) :=
  (select_loop c.series_dims c.series none (-1)).1

/-- Index of the first observation dimension whose id starts with "TIME"
(case-insensitive), as in src/app.py 364-368; `none` when absent. -/
def find_time_pos (obs_dims : List SDim) : Option Nat :=
  obs_dims.findIdx? (fun d => isPrefixList "TIME".data (upper d.id))

/-- Resolve one observation record (src/app.py 383-390): the year is
`int(time_values[idx[time_pos]]["id"])`, the value `val[0]`; a missing index,
an empty value array or an unparsable year raises in Python, modelled as
`Except.error`; a null value yields `none` (the record is skipped). -/
def extract_rec (time_pos : Nat) (time_values : List DimValue)
    (kv : List Nat × List (Option ℚ)) : Except String (Option (Int × ℚ)) :=
  match kv.1.get? time_pos with
  | none => .error "IndexError"
  | some tIdx =>
    match time_values.get? tIdx with
    | none => .error "IndexError"
    | some tv =>
      match parseInt tv.id.data with
      | none => .error "ValueError"
      | some year =>
        match kv.2.get? 0 with
        | none => .error "IndexError"
        | some v =>
          match v with
          | none => .ok none
          | some x => .ok (some (year, x))

/-- The record loop of src/app.py 382-390, preserving the native observation
order; an exception on any record aborts the whole extraction. -/
def extract_recs (time_pos : Nat) (time_values : List DimValue) :
    List (List Nat × List (Option ℚ)) → Except String (List (Int × ℚ))
  | [] => .ok []
  | kv :: rest =>
    match extract_rec time_pos time_values kv with
    | .error e => .error e
    | .ok none => extract_recs time_pos time_values rest
    | .ok (some r) =>
      match extract_recs time_pos time_values rest with
      | .error e => .error e
      | .ok rs => .ok (r :: rs)

/-- The body of `_un_series_data_via_sdmx` after the HTTP fetch
(src/app.py 356-391): processing of the parsed cube, with `Except` modelling
an exception reaching the enclosing `try`.  The year range `yr1:yr2` is
applied only in the request parameters (line 350), never here. -/
def un_sdmx_body (c : Cube) : Except String (List (Int × ℚ)) :=
  if c.series = [] then .ok []
  else
    match find_time_pos c.obs_dims with
    | none => .ok []
    | some time_pos =>
      match c.obs_dims.get? time_pos with
      | none => .error "IndexError"
      | some td =>
        match select_best c with
        | none => .ok []
        | some best_key =>
          match (c.series.find? (fun kv => kv.1 == best_key)).map (fun kv => kv.2) with
          | none => .error "KeyError"
          | some ser => extract_recs time_pos td.values ser.observations

/-- `_un_series_data_via_sdmx` proper: the enclosing `try/except Exception`
returns an empty result whenever anything raises (src/app.py 392-393). -/
def _un_series_data_via_sdmx (c : Cube) : List (Int × ℚ) :=
  match un_sdmx_body c with
  | .ok r => r
  | .error _ => []

/-- Modelled on the specification wording for `select_best`: among candidates
with a non-empty observation list, keep the key with the strictly greatest
score, the first-seen key winning ties, together with its score; `none` when
no candidate has a non-empty observation list. -/
def select_best_spec (series_dims : List SDim) :
    List (List Nat × SeriesEntry) → Option (List Nat × Int)
  | [] => none
  | (k, ser) :: rest =>
    if ser.observations = [] then select_best_spec series_dims rest
    else
      match select_best_spec series_dims rest with
      | none => some (k, _score_series_key series_dims k)
      | some (k2, s2) =>
        if s2 ≤ _score_series_key series_dims k then
          some (k, _score_series_key series_dims k)
        else some (k2, s2)

theorem dimContrib_nonneg (dim : SDim) (i : Nat) : 0 ≤ dimContrib dim i := by
  simp only [dimContrib]
  split <;> split <;> norm_num

theorem score_nonneg (dims : List SDim) (idx : List Nat) :
    0 ≤ _score_series_key dims idx := by
  induction dims generalizing idx with
  | nil => simp [_score_series_key]
  | cons d ds ih =>
    cases idx with
    | nil => simp [_score_series_key]
    | cons i js =>
      have h1 := dimContrib_nonneg d i
      have h2 := ih js
      simp only [_score_series_key]
      omega

theorem select_best_spec_score (dims : List SDim) (l : List (List Nat × SeriesEntry)) :
    ∀ k s, select_best_spec dims l = some (k, s) → s = _score_series_key dims k := by
  induction l with
  | nil => intro k s h; exact absurd h (by simp [select_best_spec])
  | cons kv rest ih =>
    intro k s h
    obtain ⟨k1, ser⟩ := kv
    simp only [select_best_spec] at h
    by_cases hobs : ser.observations = []
    · rw [if_pos hobs] at h
      exact ih k s h
    · rw [if_neg hobs] at h
      cases hr : select_best_spec dims rest with
      | none =>
        simp only [hr, Option.some.injEq, Prod.mk.injEq] at h
        rw [← h.1, ← h.2]
      | some ks2 =>
        obtain ⟨k2, s2⟩ := ks2
        simp only [hr] at h
        by_cases hle : s2 ≤ _score_series_key dims k1
        · rw [if_pos hle] at h
          simp only [Option.some.injEq, Prod.mk.injEq] at h
          rw [← h.1, ← h.2]
        · rw [if_neg hle] at h
          simp only [Option.some.injEq, Prod.mk.injEq] at h
          rw [← h.1, ← h.2]
          exact ih k2 s2 hr

theorem select_best_spec_none_iff (dims : List SDim) (l : List (List Nat × SeriesEntry)) :
    select_best_spec dims l = none ↔ ∀ kv ∈ l, kv.2.observations = [] := by
  induction l with
  | nil => simp [select_best_spec]
  | cons kv rest ih =>
    obtain ⟨k1, ser⟩ := kv
    simp only [select_best_spec]
    by_cases hobs : ser.observations = []
    · rw [if_pos hobs]
      simp only [List.mem_cons]
      constructor
      · intro h x hx
        rcases hx with hx | hx
        · subst hx; exact hobs
        · exact ih.mp h x hx
      · intro h
        exact ih.mpr (fun x hx => h x (Or.inr hx))
    · rw [if_neg hobs]
      constructor
      · intro h
        cases hr : select_best_spec dims rest with
        | none =>
          simp only [hr] at h
          exact absurd h (by simp)
        | some ks2 =>
          obtain ⟨k2, s2⟩ := ks2
          simp only [hr] at h
          by_cases hle : s2 ≤ _score_series_key dims k1
          · rw [if_pos hle] at h; exact absurd h (by simp)
          · rw [if_neg hle] at h; exact absurd h (by simp)
      · intro h
        exact absurd (h (k1, ser) (by simp)) hobs

theorem select_loop_spec (dims : List SDim) (l : List (List Nat × SeriesEntry)) :
    ∀ bk bs, select_loop dims l bk bs =
      (match select_best_spec dims l with
       | none => (bk, bs)
       | some (k, s) => if bs < s then (some k, s) else (bk, bs)) := by
  induction l with
  | nil => intro bk bs; rfl
  | cons kv rest ih =>
    intro bk bs
    obtain ⟨k1, ser⟩ := kv
    simp only [select_loop, select_best_spec]
    by_cases hobs : ser.observations = []
    · rw [if_neg (by simp [hobs]), if_pos hobs]
      exact ih bk bs
    · rw [if_neg hobs]
      cases hr : select_best_spec dims rest with
      | none =>
        by_cases hbs : bs < _score_series_key dims k1
        · rw [if_pos ⟨hbs, hobs⟩, ih]
          simp only [hr]
          simp [hbs]
        · rw [if_neg (fun hx => hbs hx.1), ih]
          simp only [hr]
          simp [hbs]
      | some ks2 =>
        obtain ⟨k2, s2⟩ := ks2
        by_cases hle : s2 ≤ _score_series_key dims k1
        · by_cases hbs : bs < _score_series_key dims k1
          · rw [if_pos ⟨hbs, hobs⟩, ih]
            simp only [hr]
            rw [if_pos hle, if_neg (show ¬ _score_series_key dims k1 < s2 by omega)]
            simp [hbs]
          · rw [if_neg (fun hx => hbs hx.1), ih]
            simp only [hr]
            rw [if_pos hle, if_neg (show ¬ bs < s2 by omega)]
            simp [hbs]
        · by_cases hbs : bs < _score_series_key dims k1
          · rw [if_pos ⟨hbs, hobs⟩, ih]
            simp only [hr]
            rw [if_neg hle, if_pos (show _score_series_key dims k1 < s2 by omega)]
            simp [show bs < s2 by omega]
          · rw [if_neg (fun hx => hbs hx.1), ih]
            simp only [hr]
            rw [if_neg hle]
            try simp

/-- Claim C2: `select_best` considers only candidates with a non-empty
observation list, returns the key of strictly greatest score with the
first-seen key winning ties under the cube's native order (refinement
against `select_best_spec`, written from the specification), and returns
`none` exactly when every candidate's observation list is empty
(src/app.py 374-380). -/
theorem c2_select_best (c : Cube) :
    select_best c = (select_best_spec c.series_dims c.series).map Prod.fst
    ∧ (select_best c = none ↔ ∀ kv ∈ c.series, kv.2.observations = []) := by
  have hmain := select_loop_spec c.series_dims c.series none (-1)
  have heq : select_best c = (select_best_spec c.series_dims c.series).map Prod.fst := by
    unfold select_best
    rw [hmain]
    cases hs : select_best_spec c.series_dims c.series with
    | none => rfl
    | some ks =>
      obtain ⟨k, s⟩ := ks
      have hsc := select_best_spec_score c.series_dims c.series k s hs
      have hpos : (-1 : Int) < s := by
        have := score_nonneg c.series_dims k
        omega
      simp only []
      rw [if_pos hpos]
      rfl
  refine ⟨heq, ?_⟩
  rw [heq, ← select_best_spec_none_iff c.series_dims c.series]
  cases hs : select_best_spec c.series_dims c.series with
  | none => simp
  | some ks => simp

/-- Claim C6: `_score_series_key` equals the sum, over dimension positions
up to the key's length, of +2 for a total-like token in the value id or
display name (uppercased) plus +3 for REPORTING_TYPE in {G, NAT, NATIONAL};
with no matches the sum, hence the score, is 0 (src/app.py 326-341). -/
theorem c6_score_sum (dims : List SDim) (idx : List Nat) :
    _score_series_key dims idx =
      ((dims.zip idx).map (fun di =>
        (if total_tokens.any
              (fun tok => containsList tok.data (upper (di.1.values.getD di.2 ⟨"", ""⟩).id))
            ∨ total_tokens.any
                (fun tok => containsList tok.data (upper (di.1.values.getD di.2 ⟨"", ""⟩).name))
          then (2 : Int) else 0)
        + (if upper di.1.id = "REPORTING_TYPE".data
            ∧ (upper (di.1.values.getD di.2 ⟨"", ""⟩).id = "G".data
              ∨ upper (di.1.values.getD di.2 ⟨"", ""⟩).id = "NAT".data
              ∨ upper (di.1.values.getD di.2 ⟨"", ""⟩).id = "NATIONAL".data)
          then (3 : Int) else 0))).sum := by
  induction dims generalizing idx with
  | nil => simp [_score_series_key]
  | cons d ds ih =>
    cases idx with
    | nil => simp [_score_series_key]
    | cons i js =>
      simp only [_score_series_key, dimContrib, List.zip_cons_cons, List.map_cons,
        List.sum_cons, ih js]

/-- A cube whose observation dimensions declare no TIME axis, yet whose one
series has observation data. -/
def c3cube : Cube :=
  { series_dims := [⟨"SEX", [⟨"T", "Total"⟩]⟩],
    obs_dims := [⟨"FREQ", [⟨"A", "Annual"⟩]⟩],
    series := [([0], ⟨[([0], [some 5])]⟩)] }

/-- Claim C3 counterexample: on a cube with data but no TIME dimension,
extraction returns a normal empty result (src/app.py 369-370 is
`return pd.DataFrame()`), it does not fail with an error; the claimed
MissingTimeDimension propagation does not exist in the code. -/
theorem c3_counterexample :
    un_sdmx_body c3cube = .ok []
    ∧ _un_series_data_via_sdmx c3cube = []
    ∧ find_time_pos c3cube.obs_dims = none
    ∧ c3cube.series ≠ []
    ∧ (c3cube.series.all (fun kv => kv.2.observations.isEmpty)) = false :=
  ⟨by rfl, by rfl, by rfl, by decide, by decide⟩

/-- Claim C3 (amended): when no observation dimension id starts with "TIME"
(case-insensitive), `_un_series_data_via_sdmx` silently returns an empty
result — the body returns `.ok []` (no exception is raised, so nothing
propagates to the caller). -/
theorem c3_no_time_dim_empty (c : Cube) (h : find_time_pos c.obs_dims = none) :
    un_sdmx_body c = .ok [] ∧ _un_series_data_via_sdmx c = [] := by
  have hbody : un_sdmx_body c = .ok [] := by
    by_cases hs : c.series = []
    · simp only [un_sdmx_body, if_pos hs]
    · simp only [un_sdmx_body, if_neg hs, h]
  exact ⟨hbody, by simp only [_un_series_data_via_sdmx, hbody]⟩

/-- A second TIME-less cube, with empty dimension lists. -/
def c3cube2 : Cube :=
  { series_dims := [], obs_dims := [], series := [([], ⟨[([0], [some 7])]⟩)] }

theorem c3_no_time_dim_empty_witness :
    un_sdmx_body c3cube2 = .ok [] ∧ _un_series_data_via_sdmx c3cube2 = [] :=
  c3_no_time_dim_empty c3cube2 rfl

/-- A cube whose observations are keyed out of year order and include a year
far outside any plausible requested range. -/
def c5cube : Cube :=
  { series_dims := [],
    obs_dims := [⟨"TIME_PERIOD", [⟨"2050", "2050"⟩, ⟨"2010", "2010"⟩]⟩],
    series := [([], ⟨[([0], [some 5]), ([1], [some 3])]⟩)] }

/-- Claim C5 counterexample: for the requested bounds [2000, 2020], the local
extraction keeps the out-of-range year 2050 (no local year filter exists:
the `yr1:yr2` restriction lives only in the HTTP "time" parameter,
src/app.py 350) and emits the records in native order 2050, 2010 — not
sorted ascending by year. -/
theorem c5_counterexample :
    _un_series_data_via_sdmx c5cube = [(2050, 5), (2010, 3)]
    ∧ (_un_series_data_via_sdmx c5cube).map Prod.fst = [2050, 2010]
    ∧ ¬ ((2050 : Int) ≤ 2020)
    ∧ ¬ ([(2050 : Int), 2010].Pairwise (· ≤ ·)) :=
  ⟨by rfl, by rfl, by norm_num, by decide⟩

/-- Well-formedness of one observation record relative to the time position
and time values: every lookup that Python performs succeeds (otherwise the
record raises and the whole extraction returns empty). -/
def rec_wf (time_pos : Nat) (time_values : List DimValue)
    (kv : List Nat × List (Option ℚ)) : Prop :=
  (kv.1.get? time_pos).isSome = true
  ∧ (time_values.get? ((kv.1.get? time_pos).getD 0)).isSome = true
  ∧ (parseInt ((time_values.get? ((kv.1.get? time_pos).getD 0)).getD ⟨"", ""⟩).id.data).isSome
      = true
  ∧ kv.2 ≠ []

instance rec_wf_decidable (tp : Nat) (tv : List DimValue) (kv : List Nat × List (Option ℚ)) :
    Decidable (rec_wf tp tv kv) := by
  unfold rec_wf
  infer_instance

/-- Total resolution of one well-formed record: `none` when the value is
null, otherwise the (year, value) pair. -/
def resolve_rec (time_pos : Nat) (time_values : List DimValue)
    (kv : List Nat × List (Option ℚ)) : Option (Int × ℚ) :=
  match (kv.2.get? 0).getD none with
  | none => none
  | some x =>
    some ((parseInt ((time_values.get? ((kv.1.get? time_pos).getD 0)).getD ⟨"", ""⟩).id.data).getD 0,
      x)

theorem extract_rec_wf (tp : Nat) (tv : List DimValue) (kv : List Nat × List (Option ℚ))
    (h : rec_wf tp tv kv) : extract_rec tp tv kv = .ok (resolve_rec tp tv kv) := by
  obtain ⟨h1, h2, h3, h4⟩ := h
  obtain ⟨ti, hti⟩ := Option.isSome_iff_exists.mp h1
  simp only [hti, Option.getD_some] at h2 h3
  obtain ⟨tvv, htv⟩ := Option.isSome_iff_exists.mp h2
  simp only [htv, Option.getD_some] at h3
  obtain ⟨yr, hyr⟩ := Option.isSome_iff_exists.mp h3
  obtain ⟨v, vs, hv⟩ := List.exists_cons_of_ne_nil h4
  obtain ⟨k1, k2⟩ := kv
  simp only at hti hv
  subst hv
  simp only [extract_rec, resolve_rec, hti, htv, hyr, Option.getD_some,
    List.get?_cons_zero]
  cases v with
  | none => rfl
  | some x => rfl

/-- Claim C5 (amended): on records whose lookups all succeed, the extraction
loop returns exactly the native-order sequence of (year, value) pairs with
null-valued records dropped (`filterMap`): no local year filtering and no
sorting is performed, and the result is a pure function of the cube (two
calls with the same input are identical). -/
theorem c5_extraction (tp : Nat) (tv : List DimValue)
    (obs : List (List Nat × List (Option ℚ))) (h : ∀ kv ∈ obs, rec_wf tp tv kv) :
    extract_recs tp tv obs = .ok (obs.filterMap (resolve_rec tp tv)) := by
  induction obs with
  | nil => rfl
  | cons kv rest ih =>
    have hk := extract_rec_wf tp tv kv (h kv (by simp))
    have hr := ih (fun x hx => h x (by simp [hx]))
    simp only [extract_recs, hk, List.filterMap_cons]
    cases hres : resolve_rec tp tv kv with
    | none => simp only [hres, hr]
    | some r => simp only [hres, hr]

theorem c5_extraction_witness :
    extract_recs 0 [⟨"2001", "a"⟩, ⟨"2002", "b"⟩] [([0], [some 1]), ([1], [none])]
      = .ok ([([0], [some 1]), ([1], [(none : Option ℚ)])].filterMap
          (resolve_rec 0 [⟨"2001", "a"⟩, ⟨"2002", "b"⟩])) :=
  c5_extraction 0 [⟨"2001", "a"⟩, ⟨"2002", "b"⟩] [([0], [some 1]), ([1], [none])]
    (by decide)
